import Mathlib

/-!
Verification of the OperationCenter MCP gateway (src/app.py, src/models.py)
against its natural-language design document.

The embedding below translates the Python source shallowly:
* `BearerTokenMiddleware.dispatch` becomes the pure decision function
  `bearerDispatch` over the request path and the optional `Authorization`
  header value;
* Starlette's middleware stacking (`Starlette.add_middleware` inserts at the
  head of `user_middleware`, and `build_middleware_stack` wraps the router so
  that the first list element is the outermost layer) becomes explicit list
  manipulation over `Middleware := Handler → Handler`;
* `compute_health` becomes a pure function of the parsed timestamp, the
  threshold and an explicit evaluation instant `now`; Python `datetime`
  values are modelled by their wall-clock reading (in seconds since an
  arbitrary epoch) together with their optional explicit UTC offset, which
  is exactly the information `fromisoformat` / `replace(tzinfo=...)` /
  aware-datetime subtraction act on;
* JSON bodies are modelled by a small `Json` inductive.

Python string primitives (`str.startswith`, `str.split(' ')`) are modelled
over `List Char` so that every definition is kernel-computable.  Rationals
stand for Python floats / second counts (the values involved are exact
decimals, so no rounding is lost).
-/

namespace OpsCenter

/-- A JSON-like value, as produced by the handlers once serialized. -/
inductive Json where
  | str (s : String)
  | num (n : Nat)
  | bool (b : Bool)
  | arr (xs : List Json)
  | obj (fields : List (String × Json))
deriving Repr

/-- Python `s.startswith(pre)`. -/
def pyStartswith (s pre : String) : Bool :=
  pre.data.isPrefixOf s.data

/-- Python `split` with an explicit single-character separator: splits at
every occurrence, keeping empty fields (`'a  b'.split(' ') == ['a','','b']`,
`''.split(' ') == ['']`). -/
def pySplitCharAux (c : Char) : List Char → List (List Char)
  | [] => [[]]
  | x :: xs =>
    match pySplitCharAux c xs with
    | [] => if x = c then [[], []] else [[x]]
    | r :: rs => if x = c then [] :: r :: rs else (x :: r) :: rs

/-- Python `s.split(c)` for a one-character separator `c`. -/
def pySplitChar (c : Char) (s : String) : List String :=
  (pySplitCharAux c s.data).map String.mk

/-- Outcome of `BearerTokenMiddleware.dispatch`: either the request is
forwarded to the inner application, or a JSON 401 is returned early. -/
inductive GateResult where
  | forward
  | reject (status : Nat) (error : String)
deriving DecidableEq, Repr

/-- The allow-list of `BearerTokenMiddleware.dispatch` (src/app.py line 29):
root health check, discovery endpoint and MCP status bypass authentication. -/
def allowPaths : List String := ["/", "/api/discovery", "/api/mcp-status"]

/-- Token extraction: `auth_header.split(' ')[1]` (src/app.py line 41).  The
index is always in range in the source because the header was already checked
to start with `"Bearer "`, so the default `""` is never used there. -/
def extractToken (authHeader : String) : String :=
  (pySplitChar ' ' authHeader).getD 1 ""

/-- Shallow embedding of `BearerTokenMiddleware.dispatch`
(src/app.py lines 27-48), as a function of the configured secret
(`TOKEN`, from the environment with default `"dev-token"`), the request
path and the value of the `Authorization` header (`none` when absent).
Python's `if not auth_header` treats an absent header and an empty-string
header alike; both fall into the first branch here because `""` does not
start with `"Bearer "`. -/
def bearerDispatch (secret path : String) (authHeader : Option String) : GateResult :=
  if path ∈ allowPaths then
    .forward
  else if pyStartswith path "/mcp" then
    match authHeader with
    | none => .reject 401 "Missing or invalid Authorization header"
    | some h =>
      if ¬ pyStartswith h "Bearer " then
        .reject 401 "Missing or invalid Authorization header"
      else if extractToken h ≠ secret then
        .reject 401 "Invalid bearer token"
      else
        .forward
  else
    .forward

end OpsCenter

namespace OpsCenter

/-- C1, the spec's reading of the gate on `/mcp` paths: forward exactly when
the header is literally `Bearer <secret>`. Stated from the spec's words, to
be compared with `bearerDispatch` (the embedding of the source). -/
def specGateForward (secret : String) (authHeader : Option String) : Prop :=
  authHeader = some ("Bearer " ++ secret)

end OpsCenter

/-- C1 counterexample: with the default secret `dev-token`, the header
`Bearer dev-token extra` is *not* of the form `Bearer <secret>` (so the claim
demands a 401), yet `BearerTokenMiddleware.dispatch` forwards the request:
`split(' ')[1]` only compares the second space-separated field. -/
theorem c1_gate_counterexample :
    OpsCenter.bearerDispatch "dev-token" "/mcp" (some "Bearer dev-token extra")
      = OpsCenter.GateResult.forward
    ∧ ¬ OpsCenter.specGateForward "dev-token" (some "Bearer dev-token extra") := by
  constructor
  · decide
  · intro h
    simp [OpsCenter.specGateForward] at h

/-- C1 (amended): on every path under `/mcp`, the gate forwards iff the
`Authorization` header is present, starts with `Bearer `, and its second
space-separated field equals the configured secret; otherwise it rejects with
status 401 and error `Missing or invalid Authorization header` when the
header is absent or lacks the `Bearer ` prefix, and `Invalid bearer token`
when the extracted field differs from the secret. -/
theorem c1_gate_amended (secret path : String) (authHeader : Option String)
    (hp : OpsCenter.pyStartswith path "/mcp" = true)
    (hn : path ∉ OpsCenter.allowPaths) :
    (OpsCenter.bearerDispatch secret path authHeader = .forward ↔
      ∃ h, authHeader = some h ∧ OpsCenter.pyStartswith h "Bearer " = true ∧
        OpsCenter.extractToken h = secret)
    ∧ ((authHeader = none ∨
          ∃ h, authHeader = some h ∧ OpsCenter.pyStartswith h "Bearer " = false) →
        OpsCenter.bearerDispatch secret path authHeader =
          .reject 401 "Missing or invalid Authorization header")
    ∧ (∀ h, authHeader = some h → OpsCenter.pyStartswith h "Bearer " = true →
        OpsCenter.extractToken h ≠ secret →
        OpsCenter.bearerDispatch secret path authHeader =
          .reject 401 "Invalid bearer token") := by
  refine ⟨?_, ?_, ?_⟩
  · constructor
    · intro hfwd
      cases authHeader with
      | none => simp [OpsCenter.bearerDispatch, hn, hp] at hfwd
      | some h =>
        refine ⟨h, rfl, ?_, ?_⟩
        · by_contra hb
          simp [OpsCenter.bearerDispatch, hn, hp, hb] at hfwd
        · by_contra ht
          by_cases hb : OpsCenter.pyStartswith h "Bearer " = true
          · simp [OpsCenter.bearerDispatch, hn, hp, hb, ht] at hfwd
          · simp [OpsCenter.bearerDispatch, hn, hp, hb] at hfwd
    · rintro ⟨h, rfl, hb, ht⟩
      simp [OpsCenter.bearerDispatch, hn, hp, hb, ht]
  · rintro (rfl | ⟨h, rfl, hb⟩)
    · simp [OpsCenter.bearerDispatch, hn, hp]
    · simp [OpsCenter.bearerDispatch, hn, hp, hb]
  · rintro h rfl hb ht
    simp [OpsCenter.bearerDispatch, hn, hp, hb, ht]

/-- Witness for `c1_gate_amended` at the path `/mcp`, exercising all three
conjuncts on concrete headers. -/
theorem c1_gate_amended_witness :
    (OpsCenter.bearerDispatch "dev-token" "/mcp" (some "Bearer dev-token") = .forward)
    ∧ (OpsCenter.bearerDispatch "dev-token" "/mcp" none =
        .reject 401 "Missing or invalid Authorization header")
    ∧ (OpsCenter.bearerDispatch "dev-token" "/mcp" (some "Bearer wrong") =
        .reject 401 "Invalid bearer token") := by
  have hp : OpsCenter.pyStartswith "/mcp" "/mcp" = true := by decide
  have hn : "/mcp" ∉ OpsCenter.allowPaths := by decide
  refine ⟨?_, ?_, ?_⟩
  · exact (c1_gate_amended "dev-token" "/mcp" (some "Bearer dev-token") hp hn).1.mpr
      ⟨"Bearer dev-token", rfl, by decide, by decide⟩
  · exact (c1_gate_amended "dev-token" "/mcp" none hp hn).2.1 (Or.inl rfl)
  · exact (c1_gate_amended "dev-token" "/mcp" (some "Bearer wrong") hp hn).2.2
      "Bearer wrong" rfl (by decide) (by decide)

/-- C6: outside the allow-list and the `/mcp` mount point, the gate's output
does not depend on the `Authorization` header: any two requests to such a
path, whatever their headers, are both forwarded unchanged. -/
theorem c6_gate_header_independent (secret path : String)
    (h₁ h₂ : Option String)
    (hn : path ∉ OpsCenter.allowPaths)
    (hm : OpsCenter.pyStartswith path "/mcp" = false) :
    OpsCenter.bearerDispatch secret path h₁ = .forward
    ∧ OpsCenter.bearerDispatch secret path h₁ =
        OpsCenter.bearerDispatch secret path h₂ := by
  constructor
  · simp [OpsCenter.bearerDispatch, hn, hm]
  · simp [OpsCenter.bearerDispatch, hn, hm]

/-- Witness for `c6_gate_header_independent`: `/api/other` with a wrong
bearer token versus no header at all. -/
theorem c6_gate_header_independent_witness :
    OpsCenter.bearerDispatch "dev-token" "/api/other" (some "Bearer wrong") = .forward
    ∧ OpsCenter.bearerDispatch "dev-token" "/api/other" (some "Bearer wrong") =
        OpsCenter.bearerDispatch "dev-token" "/api/other" none :=
  c6_gate_header_independent "dev-token" "/api/other" (some "Bearer wrong") none
    (by decide) (by decide)

/-- C10: requests to the allow-listed paths `/`, `/api/discovery` and
`/api/mcp-status` are forwarded unconditionally, whatever the
`Authorization` header holds. -/
theorem c10_allowlist_bypass (secret path : String) (authHeader : Option String)
    (hp : path ∈ OpsCenter.allowPaths) :
    OpsCenter.bearerDispatch secret path authHeader = .forward := by
  simp [OpsCenter.bearerDispatch, hp]

/-- Witness for `c10_allowlist_bypass`: `/api/discovery` with a malformed
header is still forwarded. -/
theorem c10_allowlist_bypass_witness :
    OpsCenter.bearerDispatch "dev-token" "/api/discovery" (some "garbage") = .forward :=
  c10_allowlist_bypass "dev-token" "/api/discovery" (some "garbage") (by decide)

namespace OpsCenter

/-- A Python `datetime` value as `compute_health` manipulates it: the
wall-clock reading (in seconds since a fixed epoch, fractional seconds
allowed) together with the optional explicit UTC offset carried by the value
(`none` for a naive datetime, i.e. an ISO string without offset; offsets are
in seconds, e.g. `some 3600` for `+01:00`). -/
structure PyDateTime where
  wallSeconds : ℚ
  offsetSeconds : Option ℚ
deriving DecidableEq, Repr

/-- Python `d.replace(tzinfo=timezone.utc)` (src/app.py line 209): keeps the
wall-clock fields untouched and overwrites the offset with UTC — it does NOT
convert an aware value to UTC. -/
def replaceTzinfoUtc (d : PyDateTime) : PyDateTime :=
  { wallSeconds := d.wallSeconds, offsetSeconds := some 0 }

/-- The absolute instant denoted by an aware Python datetime (what
aware-datetime subtraction measures): wall-clock reading minus offset.  In
the source this is only applied to aware values; the default 0 is never
used there. -/
def epochSecondsUTC (d : PyDateTime) : ℚ :=
  d.wallSeconds - d.offsetSeconds.getD 0

/-- The `HealthStatus` record of src/models.py lines 51-54 (the dict built by
`compute_health` has exactly these fields). -/
structure HealthStatus where
  slaMet : Bool
  elapsed : ℚ
  threshold : ℚ
deriving DecidableEq, Repr

/-- Shallow embedding of the `compute_health` tool (src/app.py lines
207-216), with the evaluation instant `datetime.now(timezone.utc)` passed
explicitly as `nowSec` (its absolute reading in seconds).  Being a function
of `(createdAt, threshold_seconds, nowSec)`, it is deterministic once `now`
is fixed. -/
def compute_health (createdAt : PyDateTime) (threshold_seconds : ℚ)
    (nowSec : ℚ) : HealthStatus :=
  let created := replaceTzinfoUtc createdAt
  let elapsed := nowSec - epochSecondsUTC created
  { slaMet := decide (elapsed ≤ threshold_seconds)
    elapsed := elapsed
    threshold := threshold_seconds }

end OpsCenter

/-- C2: `slaMet` is exactly the inclusive comparison `elapsed ≤ threshold`;
at a fixed evaluation instant `now`, a `createdAt` lying 30 seconds in the
past meets a threshold of 30 (boundary inclusive) and misses a threshold of
29.999.  Determinism given a fixed `now` is structural: `compute_health` is
a pure function of `(createdAt, threshold, now)`. -/
theorem c2_sla_inclusive_boundary (createdAt : OpsCenter.PyDateTime)
    (t nowSec : ℚ) :
    ((OpsCenter.compute_health createdAt t nowSec).slaMet = true ↔
      (OpsCenter.compute_health createdAt t nowSec).elapsed ≤ t)
    ∧ (OpsCenter.compute_health ⟨nowSec - 30, none⟩ 30 nowSec).slaMet = true
    ∧ (OpsCenter.compute_health ⟨nowSec - 30, none⟩ (29999/1000) nowSec).slaMet
        = false := by
  refine ⟨?_, ?_, ?_⟩
  · simp [OpsCenter.compute_health]
  · simp [OpsCenter.compute_health, OpsCenter.replaceTzinfoUtc,
      OpsCenter.epochSecondsUTC]
  · simp [OpsCenter.compute_health, OpsCenter.replaceTzinfoUtc,
      OpsCenter.epochSecondsUTC]
    norm_num

/-- C4 counterexample: a `createdAt` carrying the explicit offset `+01:00`
(3600 seconds) denotes the absolute instant `wall - 3600`, so with
`now = wall = 0` the claimed elapsed is 3600 seconds; the code's
`replace(tzinfo=timezone.utc)` discards the offset and yields elapsed 0. -/
theorem c4_offset_discarded_counterexample :
    (OpsCenter.compute_health ⟨0, some 3600⟩ 0 0).elapsed = 0
    ∧ (0 : ℚ) - OpsCenter.epochSecondsUTC ⟨0, some 3600⟩ = 3600
    ∧ ((0 : ℚ) - OpsCenter.epochSecondsUTC ⟨0, some 3600⟩ ≠
        (OpsCenter.compute_health ⟨0, some 3600⟩ 0 0).elapsed) := by
  refine ⟨?_, ?_, ?_⟩
  · simp [OpsCenter.compute_health, OpsCenter.replaceTzinfoUtc,
      OpsCenter.epochSecondsUTC]
  · simp [OpsCenter.epochSecondsUTC]
  · simp [OpsCenter.compute_health, OpsCenter.replaceTzinfoUtc,
      OpsCenter.epochSecondsUTC]

/-- C4 (amended): `compute_health` always reinterprets the wall-clock fields
of `createdAt` as UTC — `replace(tzinfo=timezone.utc)` discards any explicit
offset instead of honoring it — so for every input
`elapsed = now(UTC) − wallClock(createdAt)`; in particular a timestamp
without an explicit offset is interpreted as UTC, as claimed, but an
offset-carrying timestamp is not mapped to the instant it denotes. -/
theorem c4_wallclock_as_utc (createdAt : OpsCenter.PyDateTime)
    (t nowSec : ℚ) :
    (OpsCenter.compute_health createdAt t nowSec).elapsed
      = nowSec - createdAt.wallSeconds
    ∧ (createdAt.offsetSeconds = none →
        (OpsCenter.compute_health createdAt t nowSec).elapsed
          = nowSec - createdAt.wallSeconds) := by
  constructor
  · simp [OpsCenter.compute_health, OpsCenter.replaceTzinfoUtc,
      OpsCenter.epochSecondsUTC]
  · intro _
    simp [OpsCenter.compute_health, OpsCenter.replaceTzinfoUtc,
      OpsCenter.epochSecondsUTC]

/-- Witness for `c4_wallclock_as_utc` on a concrete offset-free timestamp. -/
theorem c4_wallclock_as_utc_witness :
    (OpsCenter.compute_health ⟨100, none⟩ 5 130).elapsed = 130 - 100
    ∧ (OpsCenter.PyDateTime.offsetSeconds ⟨100, none⟩ = none →
        (OpsCenter.compute_health ⟨100, none⟩ 5 130).elapsed = 130 - 100) :=
  c4_wallclock_as_utc ⟨100, none⟩ 5 130

/-- C7 counterexample: a `createdAt` 10 seconds in the future of the
evaluation instant yields a negative `elapsed` (−10), so `elapsed` is not
always non-negative. -/
theorem c7_negative_elapsed_counterexample :
    (OpsCenter.compute_health ⟨10, some 0⟩ 0 0).elapsed = -10
    ∧ ¬ (0 ≤ (OpsCenter.compute_health ⟨10, some 0⟩ 0 0).elapsed) := by
  constructor
  · simp [OpsCenter.compute_health, OpsCenter.replaceTzinfoUtc,
      OpsCenter.epochSecondsUTC]
  · simp [OpsCenter.compute_health, OpsCenter.replaceTzinfoUtc,
      OpsCenter.epochSecondsUTC]

/-- C7 (amended): `elapsed` is non-negative whenever the wall-clock reading
of `createdAt` (which the code reinterprets as UTC) does not lie after the
evaluation instant; a future `createdAt` yields a negative `elapsed`, which
is what the code computes (no clamping). -/
theorem c7_elapsed_nonneg_of_past (createdAt : OpsCenter.PyDateTime)
    (t nowSec : ℚ) (h : createdAt.wallSeconds ≤ nowSec) :
    0 ≤ (OpsCenter.compute_health createdAt t nowSec).elapsed := by
  simp [OpsCenter.compute_health, OpsCenter.replaceTzinfoUtc,
    OpsCenter.epochSecondsUTC]
  linarith

/-- Witness for `c7_elapsed_nonneg_of_past` at a timestamp 30 seconds in
the past. -/
theorem c7_elapsed_nonneg_of_past_witness :
    OpsCenter.PyDateTime.wallSeconds ⟨0, none⟩ ≤ (30 : ℚ)
    ∧ 0 ≤ (OpsCenter.compute_health ⟨0, none⟩ 5 30).elapsed :=
  ⟨by norm_num, c7_elapsed_nonneg_of_past ⟨0, none⟩ 5 30 (by norm_num)⟩

namespace OpsCenter

/-- The three sample tenant rows that `load_csv` seeds the `tenants.csv`
fixture with (src/app.py lines 62-66) and that `csv.DictReader` reads back:
each row is a flat string-valued record. -/
def sampleTenantRows : List Json :=
  [ Json.obj [("id", .str "1"), ("name", .str "Acme Corp"),
      ("metadata", .str "\x7b\"industry\":\"tech\"\x7d")],
    Json.obj [("id", .str "2"), ("name", .str "Global Industries"),
      ("metadata", .str "\x7b\"industry\":\"manufacturing\"\x7d")],
    Json.obj [("id", .str "3"), ("name", .str "StartupCo"),
      ("metadata", .str "\x7b\"industry\":\"fintech\"\x7d")] ]

/-- Shallow embedding of the `ops://tenant/list` resource handler
`list_tenants` (src/app.py lines 201-204), parameterized by the rows
`load_csv("tenants")` produced: the handler takes no other argument and
returns the row list unchanged, so the serialized response is the bare JSON
array of row objects. -/
def list_tenants (rows : List Json) : Json :=
  Json.arr rows

/-- C5's required response shape, from the spec's words: a
`PaginatedResult` serializes to an object carrying an `items` field
(src/models.py lines 6-8), with `nextCursor` optional. -/
def isPaginatedResultShape (j : Json) : Bool :=
  match j with
  | .obj fields => fields.any (fun p => p.fst = "items")
  | _ => false

end OpsCenter

/-- C5 counterexample: on the sample tenant fixture, `list_tenants` returns
a bare JSON array, not a `PaginatedResult` object — there is no `items`
sequence and no `nextCursor`, and the handler accepts no cursor argument. -/
theorem c5_list_tenants_counterexample :
    OpsCenter.isPaginatedResultShape
      (OpsCenter.list_tenants OpsCenter.sampleTenantRows) = false := by
  rfl

/-- C5 (amended): the `ops://tenant/list` handler takes no cursor argument
and returns exactly the ordered list of rows loaded from the CSV, with no
`PaginatedResult` envelope and no `nextCursor` — the `PaginatedResult` model
of src/models.py is never used by it. -/
theorem c5_list_tenants_bare_list (rows : List OpsCenter.Json) :
    OpsCenter.list_tenants rows = OpsCenter.Json.arr rows
    ∧ OpsCenter.isPaginatedResultShape (OpsCenter.list_tenants rows) = false :=
  ⟨rfl, rfl⟩

namespace OpsCenter

/-- The capability registry of the server instance in src/app.py: one
resource (`ops://tenant/list`, line 201), one tool (`compute_health`,
line 207) and one prompt (`prompt_task_summary`, line 219). -/
structure MCPRegistry where
  resources : List String
  tools : List String
  prompts : List String
deriving DecidableEq, Repr

/-- The registrations made in src/app.py. -/
def opsRegistry : MCPRegistry :=
  { resources := ["ops://tenant/list"]
    tools := ["compute_health"]
    prompts := ["prompt_task_summary"] }

/-- Shallow embedding of `mcp_status_endpoint` (src/app.py lines 181-198).
The `try` block only reads the server name and the sizes of the three
registries; `exc` is `some msg` when that introspection raises (Python
`except Exception as e`) and `none` when it succeeds.  The bare
`except Exception` means no exception escapes: the handler is a total
function returning a status code and a JSON body. -/
def mcp_status_endpoint (name : String) (reg : MCPRegistry)
    (exc : Option String) : Nat × Json :=
  match exc with
  | none =>
      (200, Json.obj
        [("mcp_server_name", .str name),
         ("resources_count", .num reg.resources.length),
         ("tools_count", .num reg.tools.length),
         ("prompts_count", .num reg.prompts.length),
         ("status", .str "healthy")])
  | some e =>
      (500, Json.obj [("status", .str "error"), ("error", .str e)])

end OpsCenter

/-- C8: for every introspection outcome, `mcp_status_endpoint` returns
either 200 with exactly the fields `mcp_server_name`, `resources_count`,
`tools_count`, `prompts_count`, `status` — the counts being the numbers of
registered resources, tools and prompts — or 500 with
`{status: "error", error: message}`; being a total function, no exception
escapes it.  Instantiated on the registry of src/app.py the success body
reports one resource, one tool and one prompt. -/
theorem c8_status_endpoint_shape (name : String) (reg : OpsCenter.MCPRegistry)
    (exc : Option String) :
    (exc = none ∧
      OpsCenter.mcp_status_endpoint name reg exc =
        (200, OpsCenter.Json.obj
          [("mcp_server_name", .str name),
           ("resources_count", .num reg.resources.length),
           ("tools_count", .num reg.tools.length),
           ("prompts_count", .num reg.prompts.length),
           ("status", .str "healthy")])
      ∨ ∃ e, exc = some e ∧
          OpsCenter.mcp_status_endpoint name reg exc =
            (500, OpsCenter.Json.obj
              [("status", .str "error"), ("error", .str e)]))
    ∧ OpsCenter.mcp_status_endpoint "OpsCenterMCP" OpsCenter.opsRegistry none =
        (200, OpsCenter.Json.obj
          [("mcp_server_name", .str "OpsCenterMCP"),
           ("resources_count", .num 1),
           ("tools_count", .num 1),
           ("prompts_count", .num 1),
           ("status", .str "healthy")]) := by
  constructor
  · cases exc with
    | none => exact Or.inl ⟨rfl, rfl⟩
    | some e => exact Or.inr ⟨e, rfl, rfl⟩
  · rfl

namespace OpsCenter

/-- Modelled from the spec: the Upstream Proxy Client's idempotency-key
attachment (§4.3) — the `Idempotency-Key` header is the caller-supplied key
when one is given, otherwise a freshly generated token.  No proxy client
exists under src/. -/
def attachIdempotencyKey (callerKey : Option String) (freshKey : String) : String :=
  callerKey.getD freshKey

/-- Modelled from the spec: the stub upstream of §8 that counts distinct
idempotency keys — delivering a key already seen applies no new mutation. -/
structure UpstreamState where
  seenKeys : List String
  mutationsApplied : Nat
deriving DecidableEq, Repr

/-- Modelled from the spec: one delivery of a mutating call to the stub
upstream, deduplicated by `Idempotency-Key`. -/
def deliverMutation (s : UpstreamState) (key : String) : UpstreamState :=
  if key ∈ s.seenKeys then s
  else { seenKeys := key :: s.seenKeys
         mutationsApplied := s.mutationsApplied + 1 }

/-- An upstream that has seen no keys and applied no mutations. -/
def upstreamInit : UpstreamState := { seenKeys := [], mutationsApplied := 0 }

end OpsCenter

/-- C9: invoking the same mutating tool twice with the same explicit
`idempotency_key` applies exactly one upstream mutation — both deliveries
carry the caller-supplied key (whatever fresh tokens the registry generated),
so the second delivery is deduplicated by the upstream. -/
theorem c9_idempotency_dedup (k fresh₁ fresh₂ : String) :
    (OpsCenter.deliverMutation
      (OpsCenter.deliverMutation OpsCenter.upstreamInit
        (OpsCenter.attachIdempotencyKey (some k) fresh₁))
      (OpsCenter.attachIdempotencyKey (some k) fresh₂)).mutationsApplied = 1 := by
  simp [OpsCenter.attachIdempotencyKey, OpsCenter.deliverMutation,
    OpsCenter.upstreamInit]

namespace OpsCenter

/-- An inbound HTTP request: path plus headers (lower-cased names). -/
structure Request where
  path : String
  headers : List (String × String)

/-- An HTTP response: status, headers and JSON-ish body. -/
structure Response where
  status : Nat
  headers : List (String × String)
  body : Json

/-- First value of a header, `none` when absent. -/
def getHeader (hs : List (String × String)) (k : String) : Option String :=
  (hs.find? (fun p => p.fst = k)).map Prod.snd

/-- A request handler (an ASGI app, collapsed to request→response). -/
abbrev Handler := Request → Response

/-- A middleware layer wraps an inner handler. -/
abbrev Middleware := Handler → Handler

/-- The `BearerTokenMiddleware` layer (src/app.py lines 26-48): runs
`dispatch` and either forwards to the inner app or short-circuits with the
JSON 401 body, never touching the inner app in the reject case. -/
def bearerTokenMiddleware (secret : String) : Middleware := fun inner req =>
  match bearerDispatch secret req.path (getHeader req.headers "authorization") with
  | .forward => inner req
  | .reject st msg =>
      { status := st
        headers := [("content-type", "application/json")]
        body := Json.obj [("error", .str msg)] }

/-- Modelled from the spec: the CORS layer configured at src/app.py lines
147-153 (`CORSMiddleware` itself is Starlette library code, absent from
src/) — "all responses … carry permissive CORS headers (`*` origin, all
methods/headers, credentials allowed)".  For a request carrying an `Origin`
header it decorates whatever response the inner app produced; it can only
decorate responses of handlers it actually wraps. -/
def corsMiddleware : Middleware := fun inner req =>
  let resp := inner req
  match getHeader req.headers "origin" with
  | none => resp
  | some _ =>
      { resp with headers :=
          ("access-control-allow-origin", "*") ::
          ("access-control-allow-credentials", "true") :: resp.headers }

/-- Starlette's `Starlette.add_middleware`: it INSERTS the new middleware at
the head of `user_middleware`, so the most recently added layer comes
first. -/
def addMiddleware (stack : List Middleware) (mw : Middleware) : List Middleware :=
  mw :: stack

/-- Starlette's `build_middleware_stack`: the user middleware wraps the
router with the FIRST list element outermost (the list is wrapped in reverse
order around the router). -/
def buildMiddlewareStack (mws : List Middleware) (inner : Handler) : Handler :=
  mws.foldr (fun mw acc => mw acc) inner

/-- The routes of the Starlette app (src/app.py lines 138-198): the three
unauthenticated endpoints plus the `/mcp` mount, whose protocol app is
opaque to the middleware claims and is represented by a fixed 200 JSON
response.  Anything else is a 404. -/
def routerHandler : Handler := fun req =>
  if req.path = "/" then
    { status := 200, headers := [("content-type", "text/plain")]
      body := Json.str "✅ MCP Server is live. Use /mcp for JSON-RPC." }
  else if req.path = "/api/discovery" then
    { status := 200, headers := [("content-type", "application/json")]
      body := Json.obj
        [("auth_required", .bool true), ("auth_type", .str "bearer")] }
  else if req.path = "/api/mcp-status" then
    let r := mcp_status_endpoint "OpsCenterMCP" opsRegistry none
    { status := r.fst, headers := [("content-type", "application/json")]
      body := r.snd }
  else if pyStartswith req.path "/mcp" then
    { status := 200, headers := [("content-type", "application/json")]
      body := Json.obj [] }
  else
    { status := 404, headers := [], body := Json.str "Not Found" }

/-- The `user_middleware` list after the two `add_middleware` calls of
src/app.py lines 147-156: CORS is added first, bearer auth second, so the
bearer layer ends up FIRST in the list — outermost. -/
def userMiddleware (secret : String) : List Middleware :=
  addMiddleware (addMiddleware [] corsMiddleware) (bearerTokenMiddleware secret)

/-- The application's request pipeline: the user middleware stacked around
the router. -/
def appHandler (secret : String) : Handler :=
  buildMiddlewareStack (userMiddleware secret) routerHandler

end OpsCenter

/-- C3 evaluated at the failing input: an unauthenticated request to `/mcp`
carrying an `Origin` header is rejected with 401 by the bearer layer — which
is OUTERMOST, because `add_middleware` prepends — so the response never
passes through the CORS layer and carries no `Access-Control-Allow-Origin`
header; the same request with a valid token does reach the CORS layer and
its response does carry the header.  This contradicts the claim (and the
code's own comments at src/app.py lines 146 and 155) that CORS negotiation
precedes authentication and that 401s carry CORS headers. -/
theorem c3_401_lacks_cors_headers :
    (OpsCenter.appHandler "dev-token"
      { path := "/mcp", headers := [("origin", "http://localhost:3000")] }).status
      = 401
    ∧ OpsCenter.getHeader
        (OpsCenter.appHandler "dev-token"
          { path := "/mcp",
            headers := [("origin", "http://localhost:3000")] }).headers
        "access-control-allow-origin" = none
    ∧ OpsCenter.getHeader
        (OpsCenter.appHandler "dev-token"
          { path := "/mcp",
            headers := [("origin", "http://localhost:3000"),
                        ("authorization", "Bearer dev-token")] }).headers
        "access-control-allow-origin" = some "*" := by
  refine ⟨rfl, rfl, rfl⟩
